import Mathlib

/-!
Shallow embedding of the Eureka peer-replication layer of the polaris
service registry (`apiserver/eurekaserver/replicate.go`).

The registry mutation operations (`registerInstances`, `renew`,
`deregisterInstance`, `updateStatus`) are external collaborators invoked as
black boxes; they are modelled as function-valued fields of `EurekaServer`,
so theorems quantify over every possible behaviour of the registry.
Protocol result codes are machine `uint32` values defined in the `api`
package outside the analysed file; only their pairwise distinctness is
relied on here.
-/

namespace Replicate

/-- Protocol code: overall success (`api.ExecuteSuccess`, value from the api
package outside the analysed file; only distinctness of the codes matters). -/
def ExecuteSuccess : Nat := 200000

/-- Protocol code: malformed request body (`api.ParseException`). -/
def ParseException : Nat := 400001

/-- Protocol code: the resource already exists (`api.ExistedResource`). -/
def ExistedResource : Nat := 400201

/-- Protocol code: the resource was not found (`api.NotFoundResource`). -/
def NotFoundResource : Nat := 400202

/-- Protocol code: repeated identical instance request (`api.SameInstanceRequest`). -/
def SameInstanceRequest : Nat := 400208

/-- Protocol code: heartbeat rate limit exceeded (`api.HeartbeatExceedLimit`). -/
def HeartbeatExceedLimit : Nat := 400506

/-- Protocol code: genuine backend execution failure (`api.ExecuteException`). -/
def ExecuteException : Nat := 500000

/-- Modelled from the spec: the spec's error taxonomy (§7) names a dedicated
`AuthException` protocol code for missing/invalid credentials, distinct from
`ExecuteException` which it reserves for genuine backend failures.  No such
code appears in the analysed file; it is modelled as a further distinct value
so the two taxonomy entries can be told apart. -/
def AuthException : Nat := 401000

/-- Action tag `actionRegister` ("Register"). -/
def actionRegister : String := "Register"

/-- Action tag `actionHeartbeat` ("Heartbeat"). -/
def actionHeartbeat : String := "Heartbeat"

/-- Action tag `actionCancel` ("Cancel"). -/
def actionCancel : String := "Cancel"

/-- Action tag `actionStatusUpdate` ("StatusUpdate"). -/
def actionStatusUpdate : String := "StatusUpdate"

/-- Action tag `actionDeleteStatusOverride` ("DeleteStatusOverride"). -/
def actionDeleteStatusOverride : String := "DeleteStatusOverride"

/-- Identity string every polaris server declares (`valueIdentityName`). -/
def valueIdentityName : String := "PolarisServer"

/-- Modelled from the spec: the eureka wire status string `StatusUp` ("UP")
is defined outside the analysed file. -/
def StatusUp : String := "UP"

/-- Modelled from the spec: the eureka wire status string `StatusDown`
("DOWN") is defined outside the analysed file. -/
def StatusDown : String := "DOWN"

/-- Modelled from the spec: the eureka wire status string
`StatusOutOfService` ("OUT_OF_SERVICE") is defined outside the analysed file. -/
def StatusOutOfService : String := "OUT_OF_SERVICE"

/-- Modelled from the spec: the reserved anti-loop metadata key
`MetadataReplicate` (§4.1 "reserved replicate flag") is defined outside the
analysed file; its concrete spelling is irrelevant to the claims. -/
def MetadataReplicate : String := "internal-eureka-replicate"

/-- Opaque stand-in for the protobuf health-check message, copied by
reference in the Go code. -/
structure HealthCheckMsg where
  payload : Nat
deriving DecidableEq, Repr

/-- Opaque stand-in for the protobuf location message, copied by reference
in the Go code. -/
structure LocationMsg where
  payload : Nat
deriving DecidableEq, Repr

/-- The fields of `apiservice.Instance` read or written by
`eventToInstance`.  Protobuf wrapper getters (`GetHost().GetValue()` etc.)
return the zero value on nil, so fields are modelled as plain values. -/
structure Instance where
  Id : String
  Host : String
  Port : Nat
  Protocol : String
  Version : String
  Priority : Nat
  Weight : Nat
  EnableHealthCheck : Bool
  HealthCheck : Option HealthCheckMsg
  Healthy : Bool
  Isolate : Bool
  Location : Option LocationMsg
  Metadata : List (String × String)
deriving DecidableEq, Repr

/-- Modelled from the spec: `buildInstance` (defined outside the analysed
file) packages the constructed instance together with the read-format app
name and the current time into the wire-format `InstanceInfo` snapshot
("snapshot: built from event", §4.2). -/
structure InstanceInfo where
  AppName : String
  instance_ : Instance
  lastUpdatedTimestamp : Int
deriving DecidableEq, Repr

/-- One replication task / inbound batch item (`ReplicationInstance`).
Absent optional fields carry the Go zero value. -/
structure ReplicationInstance where
  AppName : String := ""
  Id : String := ""
  LastDirtyTimestamp : Int := 0
  Status : String := ""
  OverriddenStatus : String := ""
  InstanceInfo : Option InstanceInfo := none
  Action : String := ""
deriving DecidableEq, Repr

/-- Per-task acknowledgement (`ReplicationInstanceResponse`). -/
structure ReplicationInstanceResponse where
  StatusCode : Nat
deriving DecidableEq, Repr

/-- The event kinds of `model.InstanceEvent` handled by the replication
layer (`model.EventInstance...`). -/
inductive EventType where
  | online
  | offline
  | sendHeartbeat
  | turnHealth
  | turnUnHealth
  | openIsolate
  | closeIsolate
deriving DecidableEq, Repr

/-- The fields of `model.InstanceEvent` read by the replication layer. -/
structure InstanceEvent where
  Id : String
  Namespace : String
  Service : String
  Instance : Instance
  EType : EventType
  MetaData : List (String × String)
deriving DecidableEq, Repr

/-- Go `map[string]string` lookup `metadata[key]`, on the association-list
model of the map (keys are unique in a Go map; the first binding wins). -/
def lookupMeta (metadata : List (String × String)) (key : String) : Option String :=
  (metadata.find? (fun kv => kv.1 == key)).map (fun kv => kv.2)

/-- Go `strconv.ParseBool`: accepts exactly "1", "t", "T", "TRUE", "true",
"True" (true) and "0", "f", "F", "FALSE", "false", "False" (false);
everything else is an error (`none`). -/
def strconvParseBool (s : String) : Option Bool :=
  if s = "1" ∨ s = "t" ∨ s = "T" ∨ s = "TRUE" ∨ s = "true" ∨ s = "True" then
    some true
  else if s = "0" ∨ s = "f" ∨ s = "F" ∨ s = "FALSE" ∨ s = "false" ∨ s = "False" then
    some false
  else
    none

/-- Modelled from the spec: `formatReadName` (defined outside the analysed
file) case-normalizes the service identifier (§3 "case-normalized service
identifier"). -/
def formatReadName (appName : String) : String :=
  appName.toUpper

/-- Modelled from the spec: `convertInstancePorts` (defined outside the
analysed file) normalizes the wire encoding of the embedded port fields;
per the spec (§3 Lifecycle: a task "is never mutated after creation") it
leaves the snapshot unchanged, so it is modelled as the identity. -/
def convertInstancePorts (info : InstanceInfo) : InstanceInfo :=
  info

/-- A record of one invocation of a local registry operation, including the
auth token put on the context and the `replicated = true` flag. -/
inductive RegistryCall where
  | register (token appName : String) (info : Option InstanceInfo) (replicated : Bool)
  | renew (token appName instanceId : String) (replicated : Bool)
  | deregister (token appName instanceId : String) (replicated : Bool)
  | updateStatus (token appName instanceId status : String) (replicated : Bool)
deriving DecidableEq, Repr

/-- The `EurekaServer` receiver: its configured namespace (Go field
`namespace`, renamed because `namespace` is a Lean keyword) and the four
local registry operations, which are external collaborators modelled as
arbitrary functions from their arguments to a protocol code. -/
structure EurekaServer where
  namespaceName : String
  registerInstances : String → String → Option InstanceInfo → Bool → Nat
  renew : String → String → String → Bool → Nat
  deregisterInstance : String → String → String → Bool → Nat
  updateStatus : String → String → String → String → Bool → Nat

/-- Result of `dispatch`: the per-task response, the final protocol code,
the task as it stands after dispatch (to observe absence of mutation), and
the registry operations invoked, in order. -/
structure DispatchResult where
  response : ReplicationInstanceResponse
  code : Nat
  finalTask : ReplicationInstance
  calls : List RegistryCall
deriving DecidableEq, Repr

/-- The port-conversion step at the top of `dispatch`: when the task has an
embedded snapshot (`nil != replicationInstance.InstanceInfo`), its ports are
normalized in place by `convertInstancePorts`; modelled as producing the
task with the converted snapshot. -/
def portConvertTask (ri : ReplicationInstance) : ReplicationInstance :=
  match ri.InstanceInfo with
  | some info => { ri with InstanceInfo := some (convertInstancePorts info) }
  | none => ri

/-- `(h *EurekaServer) dispatch(replicationInstance, token)`: apply one
inbound replication task against the local registry and normalize the
result code. -/
def dispatch (h : EurekaServer) (replicationInstance : ReplicationInstance)
    (token : String) : DispatchResult :=
  let appName := formatReadName replicationInstance.AppName
  let ri := portConvertTask replicationInstance
  let codeCalls : Nat × List RegistryCall :=
    if ri.Action = actionRegister then
      let c := h.registerInstances token appName ri.InstanceInfo true
      (if c = ExecuteSuccess ∨ c = ExistedResource ∨ c = SameInstanceRequest then
        ExecuteSuccess else c,
       [RegistryCall.register token appName ri.InstanceInfo true])
    else if ri.Action = actionHeartbeat then
      let c := h.renew token appName ri.Id true
      (if c = ExecuteSuccess ∨ c = HeartbeatExceedLimit then ExecuteSuccess else c,
       [RegistryCall.renew token appName ri.Id true])
    else if ri.Action = actionCancel then
      let c := h.deregisterInstance token appName ri.Id true
      (if c = ExecuteSuccess ∨ c = NotFoundResource ∨ c = SameInstanceRequest then
        ExecuteSuccess else c,
       [RegistryCall.deregister token appName ri.Id true])
    else if ri.Action = actionStatusUpdate then
      (h.updateStatus token appName ri.Id ri.Status true,
       [RegistryCall.updateStatus token appName ri.Id ri.Status true])
    else if ri.Action = actionDeleteStatusOverride then
      (h.updateStatus token appName ri.Id StatusUp true,
       [RegistryCall.updateStatus token appName ri.Id StatusUp true])
    else
      (ExecuteSuccess, [])
  let retCode := codeCalls.1
  let statusCode := if retCode = NotFoundResource then 404 else 200
  { response := { StatusCode := statusCode }
    code := retCode
    finalTask := ri
    calls := codeCalls.2 }

/-- The loop body of `doBatchReplicate`, written as a tail recursion over
the remaining request list with the accumulated response list, running
aggregate code (initialized to `ExecuteSuccess` and overwritten by every
non-success per-task code) and accumulated registry calls. -/
def doBatchGo (h : EurekaServer) (token : String) :
    List ReplicationInstance → List ReplicationInstanceResponse → Nat →
      List RegistryCall →
      List ReplicationInstanceResponse × Nat × List RegistryCall
  | [], resps, resultCode, calls => (resps, resultCode, calls)
  | ri :: rest, resps, resultCode, calls =>
    let d := dispatch h ri token
    doBatchGo h token rest (resps ++ [d.response])
      (if d.code ≠ ExecuteSuccess then d.code else resultCode)
      (calls ++ d.calls)

/-- `(h *EurekaServer) doBatchReplicate(replicateRequest, token)`: dispatch
every task in request order, pairing responses by index and aggregating the
codes. -/
def doBatchReplicate (h : EurekaServer) (replicateRequest : List ReplicationInstance)
    (token : String) :
    List ReplicationInstanceResponse × Nat × List RegistryCall :=
  doBatchGo h token replicateRequest [] ExecuteSuccess []

/-- What `BatchReplication` writes back: the HTTP status, the polaris
protocol code header, the response list when one is written, plus the
registry calls made while serving the request. -/
structure BatchReplicationResult where
  httpStatus : Nat
  polarisCode : Nat
  responseList : Option (List ReplicationInstanceResponse)
  calls : List RegistryCall
deriving DecidableEq, Repr

/-- `(h *EurekaServer) BatchReplication(req, rsp)`.  Transport extraction is
modelled at the boundary: `sourceSvrName` is the `DiscoveryIdentity-Name`
header; `body` is `none` when `req.ReadEntity` fails (malformed batch) and
otherwise the decoded task list; `auth` is `none` when
`getAuthFromEurekaRequestHeader` fails (missing/invalid credential, code
outside the analysed file) and otherwise the extracted token.  Modelled from
the spec in the self-echo branch: `writeEurekaResponse` (outside the
analysed file) writes the batch with HTTP 200 and the success protocol code
("return an empty success batch", §4.4); likewise
`writeEurekaResponseWithCode` writes HTTP 200 with the given code (§6). -/
def BatchReplication (h : EurekaServer) (sourceSvrName : String)
    (body : Option (List ReplicationInstance)) (auth : Option String) :
    BatchReplicationResult :=
  if sourceSvrName = valueIdentityName then
    { httpStatus := 200, polarisCode := ExecuteSuccess, responseList := some [], calls := [] }
  else
    match body with
    | none =>
      { httpStatus := 400, polarisCode := ParseException, responseList := none, calls := [] }
    | some replicateRequest =>
      match auth with
      | none =>
        { httpStatus := 403, polarisCode := ExecuteException, responseList := none, calls := [] }
      | some token =>
        let r := doBatchReplicate h replicateRequest token
        { httpStatus := 200, polarisCode := r.2.1, responseList := some r.1, calls := r.2.2 }

/-- `(h *EurekaServer) shouldReplicate(e)`: namespace scoping plus the
anti-loop metadata flag. -/
def shouldReplicate (h : EurekaServer) (e : InstanceEvent) : Bool :=
  if e.Namespace ≠ h.namespaceName then
    false
  else
    let metadata := e.MetaData
    if metadata.length > 0 then
      match lookupMeta metadata MetadataReplicate with
      | some value =>
        let isReplicate := (strconvParseBool value).getD false
        !isReplicate
      | none => true
    else
      true

/-- `eventToInstance(event, appName, curTimeMilli)`: copy the instance
fields out of the event, then force the healthy/isolate booleans from the
event kind. -/
def eventToInstance (event : InstanceEvent) (appName : String)
    (curTimeMilli : Int) : InstanceInfo :=
  let instance0 : Instance :=
    { Id := event.Id
      Host := event.Instance.Host
      Port := event.Instance.Port
      Protocol := event.Instance.Protocol
      Version := event.Instance.Version
      Priority := event.Instance.Priority
      Weight := event.Instance.Weight
      EnableHealthCheck := event.Instance.EnableHealthCheck
      HealthCheck := event.Instance.HealthCheck
      Healthy := event.Instance.Healthy
      Isolate := event.Instance.Isolate
      Location := event.Instance.Location
      Metadata := event.Instance.Metadata }
  let instance1 :=
    if event.EType = EventType.turnHealth then
      { instance0 with Healthy := true }
    else if event.EType = EventType.turnUnHealth then
      { instance0 with Healthy := false }
    else if event.EType = EventType.openIsolate then
      { instance0 with Isolate := true }
    else if event.EType = EventType.closeIsolate then
      { instance0 with Isolate := false }
    else
      instance0
  { AppName := appName, instance_ := instance1, lastUpdatedTimestamp := curTimeMilli }

/-- `(h *EurekaServer) handleInstanceEvent(ctx, i)`: classify the event and
translate it into the replication tasks handed to
`replicateWorker.AddReplicateTask`, returned here in submission order. -/
def handleInstanceEvent (h : EurekaServer) (e : InstanceEvent)
    (curTimeMilli : Int) : List ReplicationInstance :=
  if !(shouldReplicate h e) then
    []
  else
    let appName := formatReadName e.Service
    match e.EType with
    | EventType.online =>
      let instanceInfo := eventToInstance e appName curTimeMilli
      [{ AppName := appName
         Id := e.Id
         LastDirtyTimestamp := curTimeMilli
         Status := StatusUp
         InstanceInfo := some instanceInfo
         Action := actionRegister }]
    | EventType.offline =>
      [{ AppName := appName
         Id := e.Id
         Action := actionCancel }]
    | EventType.sendHeartbeat =>
      let instanceInfo := eventToInstance e appName curTimeMilli
      let rInstance : ReplicationInstance :=
        { AppName := appName
          Id := e.Id
          Status := StatusUp
          InstanceInfo := some instanceInfo
          Action := actionHeartbeat }
      let rInstance :=
        if e.Instance.Isolate then
          { rInstance with OverriddenStatus := StatusOutOfService }
        else
          rInstance
      [rInstance]
    | EventType.turnHealth =>
      [{ AppName := appName
         Id := e.Id
         LastDirtyTimestamp := curTimeMilli
         Status := StatusUp
         Action := actionStatusUpdate }]
    | EventType.turnUnHealth =>
      [{ AppName := appName
         Id := e.Id
         LastDirtyTimestamp := curTimeMilli
         Status := StatusDown
         Action := actionStatusUpdate }]
    | EventType.openIsolate =>
      [{ AppName := appName
         Id := e.Id
         LastDirtyTimestamp := curTimeMilli
         OverriddenStatus := StatusOutOfService
         Action := actionHeartbeat }]
    | EventType.closeIsolate =>
      [{ AppName := appName
         Id := e.Id
         LastDirtyTimestamp := curTimeMilli
         Action := actionDeleteStatusOverride }]

/-- Spec-side definition, written from the idempotency-normalization table
of §4.4 of the spec: per action, which raw codes of the local operation are
normalized to `ExecuteSuccess`; `StatusUpdate` and `DeleteStatusOverride`
rows propagate the raw code unchanged.  To be compared against the inline
normalization of `dispatch`. -/
def specNormalize (action : String) (raw : Nat) : Nat :=
  if action = actionRegister then
    if raw = ExistedResource ∨ raw = SameInstanceRequest then ExecuteSuccess else raw
  else if action = actionHeartbeat then
    if raw = HeartbeatExceedLimit then ExecuteSuccess else raw
  else if action = actionCancel then
    if raw = NotFoundResource ∨ raw = SameInstanceRequest then ExecuteSuccess else raw
  else
    raw

/-- The raw code returned by the local registry operation selected by the
task's action (the middle column of the §4.4 table): register for Register,
renew for Heartbeat, deregister for Cancel, updateStatus with the task's
status for StatusUpdate and with `StatusUp` for DeleteStatusOverride;
`ExecuteSuccess` when no operation is selected. -/
def localOpCode (h : EurekaServer) (ri : ReplicationInstance) (token : String) : Nat :=
  let appName := formatReadName ri.AppName
  if ri.Action = actionRegister then
    h.registerInstances token appName ri.InstanceInfo true
  else if ri.Action = actionHeartbeat then
    h.renew token appName ri.Id true
  else if ri.Action = actionCancel then
    h.deregisterInstance token appName ri.Id true
  else if ri.Action = actionStatusUpdate then
    h.updateStatus token appName ri.Id ri.Status true
  else if ri.Action = actionDeleteStatusOverride then
    h.updateStatus token appName ri.Id StatusUp true
  else
    ExecuteSuccess

/-- The aggregate-code update performed by one iteration of the
`doBatchReplicate` loop: a non-success per-task code overwrites the running
aggregate. -/
def aggStep (resultCode c : Nat) : Nat :=
  if c ≠ ExecuteSuccess then c else resultCode

/-- A concrete registry for witnesses: registration, renewal and
deregistration succeed, status updates report `NotFoundResource`. -/
def hEx : EurekaServer :=
  { namespaceName := "default"
    registerInstances := fun _ _ _ _ => ExecuteSuccess
    renew := fun _ _ _ _ => ExecuteSuccess
    deregisterInstance := fun _ _ _ _ => ExecuteSuccess
    updateStatus := fun _ _ _ _ _ => NotFoundResource }

/-- Concrete witness batch: Register, StatusUpdate, Register — which under
`hEx` yields per-task codes Success, NotFoundResource, Success. -/
def batchEx : List ReplicationInstance :=
  [{ AppName := "svcA", Id := "i1", Action := actionRegister },
   { AppName := "svcA", Id := "i1", Status := StatusDown, Action := actionStatusUpdate },
   { AppName := "svcA", Id := "i1", Action := actionRegister }]

/-- Concrete witness task with the DeleteStatusOverride action. -/
def riDel : ReplicationInstance :=
  { AppName := "svcA", Id := "i9", Action := actionDeleteStatusOverride }

/-- Concrete witness task with an action string unknown to the dispatcher. -/
def riUnknown : ReplicationInstance :=
  { AppName := "svcA", Id := "i9", Action := "Bogus" }

/-- Concrete instance used by the witness events; note it is isolated. -/
def instEx : Instance :=
  { Id := "i1", Host := "10.0.0.1", Port := 8080, Protocol := "http"
    Version := "1.0", Priority := 0, Weight := 100, EnableHealthCheck := true
    HealthCheck := none, Healthy := true, Isolate := true, Location := none
    Metadata := [] }

/-- Witness event: heartbeat of an isolated instance in this node's
namespace. -/
def eHeartbeat : InstanceEvent :=
  { Id := "i1", Namespace := "default", Service := "svcA", Instance := instEx
    EType := EventType.sendHeartbeat, MetaData := [] }

/-- Witness event: instance going offline in this node's namespace. -/
def eOffline : InstanceEvent :=
  { Id := "i1", Namespace := "default", Service := "svcA", Instance := instEx
    EType := EventType.offline, MetaData := [] }

/-- Witness event: an event in a foreign namespace. -/
def eForeign : InstanceEvent :=
  { Id := "i1", Namespace := "other", Service := "svcA", Instance := instEx
    EType := EventType.online, MetaData := [] }

/-- Witness event: an event carrying the anti-loop replicate flag set to
"true". -/
def eFlagged : InstanceEvent :=
  { Id := "i1", Namespace := "default", Service := "svcA", Instance := instEx
    EType := EventType.online, MetaData := [(MetadataReplicate, "true")] }

theorem portConvertTask_eq (ri : ReplicationInstance) : portConvertTask ri = ri := by
  obtain ⟨a, i, l, s, o, info, act⟩ := ri
  cases info <;> rfl

theorem registerNormalize_eq (c : Nat) :
    (if c = ExecuteSuccess ∨ c = ExistedResource ∨ c = SameInstanceRequest then ExecuteSuccess
      else c) =
      if c = ExistedResource ∨ c = SameInstanceRequest then ExecuteSuccess else c := by
  by_cases h1 : c = ExecuteSuccess
  · subst h1; simp
  · simp [h1]

theorem heartbeatNormalize_eq (c : Nat) :
    (if c = ExecuteSuccess ∨ c = HeartbeatExceedLimit then ExecuteSuccess else c) =
      if c = HeartbeatExceedLimit then ExecuteSuccess else c := by
  by_cases h1 : c = ExecuteSuccess
  · subst h1; simp
  · simp [h1]

theorem cancelNormalize_eq (c : Nat) :
    (if c = ExecuteSuccess ∨ c = NotFoundResource ∨ c = SameInstanceRequest then ExecuteSuccess
      else c) =
      if c = NotFoundResource ∨ c = SameInstanceRequest then ExecuteSuccess else c := by
  by_cases h1 : c = ExecuteSuccess
  · subst h1; simp
  · simp [h1]

theorem dispatch_code_norm (h : EurekaServer) (ri : ReplicationInstance) (token : String) :
    (dispatch h ri token).code = specNormalize ri.Action (localOpCode h ri token) := by
  obtain ⟨a, i, l, s, o, info, act⟩ := ri
  simp only [dispatch, portConvertTask_eq, specNormalize, localOpCode]
  by_cases h1 : act = actionRegister
  · subst h1; simp [registerNormalize_eq]
  · by_cases h2 : act = actionHeartbeat
    · subst h2; simp [h1, heartbeatNormalize_eq]
    · by_cases h3 : act = actionCancel
      · subst h3; simp [h1, h2, cancelNormalize_eq]
      · by_cases h4 : act = actionStatusUpdate
        · subst h4; simp [h1, h2, h3]
        · by_cases h5 : act = actionDeleteStatusOverride
          · subst h5; simp [h1, h2, h3, h4]
          · simp [h1, h2, h3, h4, h5]

/-- C1: for every inbound replication task applied by the dispatcher, the
final per-task protocol code is the code returned by the local operation
selected by the task's action (`localOpCode`), after the action-keyed
idempotency normalization of the §4.4 table (`specNormalize`); moreover
DeleteStatusOverride invokes `updateStatus` with status Up. -/
theorem dispatch_code_is_normalized_local_op (h : EurekaServer)
    (ri : ReplicationInstance) (token : String) :
    (dispatch h ri token).code = specNormalize ri.Action (localOpCode h ri token) ∧
    (ri.Action = actionDeleteStatusOverride →
      (dispatch h ri token).calls =
        [RegistryCall.updateStatus token (formatReadName ri.AppName) ri.Id StatusUp true]) := by
  refine ⟨dispatch_code_norm h ri token, fun hA => ?_⟩
  obtain ⟨a, i, l, s, o, info, act⟩ := ri
  have hA2 : act = actionDeleteStatusOverride := hA
  subst hA2
  cases info <;> rfl

/-- Witness for C1 at a concrete DeleteStatusOverride task on a concrete
registry. -/
theorem dispatch_code_is_normalized_local_op_witness :
    (dispatch hEx riDel "tk").code = specNormalize riDel.Action (localOpCode hEx riDel "tk") ∧
    (dispatch hEx riDel "tk").calls =
      [RegistryCall.updateStatus "tk" (formatReadName riDel.AppName) riDel.Id StatusUp true] :=
  ⟨(dispatch_code_is_normalized_local_op hEx riDel "tk").1,
   (dispatch_code_is_normalized_local_op hEx riDel "tk").2 rfl⟩

/-- C9: the inbound dispatcher applies a received task without modifying the
task or its embedded instance snapshot: the task after `dispatch` equals the
task received. -/
theorem dispatch_does_not_mutate_task (h : EurekaServer)
    (ri : ReplicationInstance) (token : String) :
    (dispatch h ri token).finalTask = ri := by
  simp only [dispatch]
  exact portConvertTask_eq ri

/-- C10: a task whose action is none of the five known actions invokes no
registry operation and yields `ExecuteSuccess` with HTTP status hint 200. -/
theorem dispatch_unknown_action_success (h : EurekaServer)
    (ri : ReplicationInstance) (token : String)
    (h1 : ri.Action ≠ actionRegister) (h2 : ri.Action ≠ actionHeartbeat)
    (h3 : ri.Action ≠ actionCancel) (h4 : ri.Action ≠ actionStatusUpdate)
    (h5 : ri.Action ≠ actionDeleteStatusOverride) :
    (dispatch h ri token).code = ExecuteSuccess ∧
    (dispatch h ri token).response.StatusCode = 200 ∧
    (dispatch h ri token).calls = [] := by
  obtain ⟨a, i, l, s, o, info, act⟩ := ri
  simp only [ReplicationInstance.Action] at h1 h2 h3 h4 h5
  simp [dispatch, portConvertTask_eq, h1, h2, h3, h4, h5, ExecuteSuccess, NotFoundResource]

/-- Witness for C10 at a concrete task with the unknown action "Bogus". -/
theorem dispatch_unknown_action_success_witness :
    (dispatch hEx riUnknown "tk").code = ExecuteSuccess ∧
    (dispatch hEx riUnknown "tk").response.StatusCode = 200 ∧
    (dispatch hEx riUnknown "tk").calls = [] :=
  dispatch_unknown_action_success hEx riUnknown "tk" (by decide) (by decide) (by decide)
    (by decide) (by decide)

/-- C3: a request whose declared source identity equals this node's own
identity string gets an empty response list with `ExecuteSuccess` aggregate,
whatever the batch contents, and no registry operation is invoked. -/
theorem batchReplication_self_echo_guard (h : EurekaServer)
    (body : Option (List ReplicationInstance)) (auth : Option String) :
    BatchReplication h valueIdentityName body auth =
      { httpStatus := 200, polarisCode := ExecuteSuccess
        responseList := some [], calls := [] } := by
  simp [BatchReplication]

/-- Counterexample to C4: with a malformed-free body and a missing
credential, the whole-request rejection carries protocol code
`ExecuteException` — the code the spec's taxonomy reserves for genuine
backend failures — not the dedicated `AuthException` the claim states. -/
theorem batchReplication_auth_code_counterexample :
    (BatchReplication hEx "peer-1" (some []) none).polarisCode = ExecuteException ∧
    ExecuteException ≠ AuthException := by
  constructor
  · rfl
  · decide

/-- C4 (amended): a malformed batch body is rejected whole with
`ParseException` and HTTP 400; a missing/invalid credential is rejected
whole with `ExecuteException` and HTTP 403; both rejections produce no
per-task outcomes and invoke no registry operation. -/
theorem batchReplication_transport_rejections (h : EurekaServer)
    (sourceSvrName : String) (auth : Option String)
    (tasks : List ReplicationInstance)
    (hs : sourceSvrName ≠ valueIdentityName) :
    BatchReplication h sourceSvrName none auth =
      { httpStatus := 400, polarisCode := ParseException
        responseList := none, calls := [] } ∧
    BatchReplication h sourceSvrName (some tasks) none =
      { httpStatus := 403, polarisCode := ExecuteException
        responseList := none, calls := [] } := by
  constructor <;> simp [BatchReplication, hs]

/-- Witness for the amended C4 at a concrete foreign source identity. -/
theorem batchReplication_transport_rejections_witness :
    BatchReplication hEx "peer-1" none none =
      { httpStatus := 400, polarisCode := ParseException
        responseList := none, calls := [] } ∧
    BatchReplication hEx "peer-1" (some batchEx) none =
      { httpStatus := 403, polarisCode := ExecuteException
        responseList := none, calls := [] } :=
  ⟨(batchReplication_transport_rejections hEx "peer-1" none batchEx (by decide)).1,
   (batchReplication_transport_rejections hEx "peer-1" none batchEx (by decide)).2⟩

theorem doBatchGo_eq (h : EurekaServer) (token : String)
    (l : List ReplicationInstance) (resps : List ReplicationInstanceResponse)
    (resultCode : Nat) (calls : List RegistryCall) :
    doBatchGo h token l resps resultCode calls =
      (resps ++ l.map (fun ri => (dispatch h ri token).response),
       (l.map (fun ri => (dispatch h ri token).code)).foldl aggStep resultCode,
       calls ++ (l.map (fun ri => (dispatch h ri token).calls)).flatten) := by
  induction l generalizing resps resultCode calls with
  | nil => simp [doBatchGo]
  | cons ri rest ih =>
    simp only [doBatchGo, List.map_cons, List.foldl_cons, List.flatten, ih, aggStep]
    simp [List.append_assoc]

theorem foldl_aggStep_success_iff (cs : List Nat) (init : Nat) :
    cs.foldl aggStep init = ExecuteSuccess ↔
      init = ExecuteSuccess ∧ ∀ c ∈ cs, c = ExecuteSuccess := by
  induction cs generalizing init with
  | nil => simp
  | cons c rest ih =>
    by_cases hc : c = ExecuteSuccess
    · subst hc
      simp [List.foldl_cons, aggStep, ih]
    · simp only [List.foldl_cons, aggStep, if_pos hc, ih]
      constructor
      · rintro ⟨hcs, _⟩; exact absurd hcs hc
      · rintro ⟨_, hall⟩; exact absurd (hall c (by simp)) hc

theorem getLast?_cons_getD (l : List Nat) (a d : Nat) :
    ((a :: l).getLast?).getD d = (l.getLast?).getD a := by
  induction l generalizing a d with
  | nil => rfl
  | cons b rest ih =>
    rw [List.getLast?_cons_cons, ih b d, ih b a]

theorem foldl_aggStep_getLast (cs : List Nat) (init : Nat) :
    cs.foldl aggStep init =
      ((cs.filter (fun c => decide (c ≠ ExecuteSuccess))).getLast?).getD init := by
  induction cs generalizing init with
  | nil => rfl
  | cons c rest ih =>
    by_cases hc : c = ExecuteSuccess
    · subst hc
      simp [List.foldl_cons, aggStep, ih]
    · rw [List.foldl_cons]
      rw [show aggStep init c = c by simp [aggStep, hc]]
      rw [ih c]
      rw [show (c :: rest).filter (fun c => decide (c ≠ ExecuteSuccess)) =
        c :: rest.filter (fun c => decide (c ≠ ExecuteSuccess)) by simp [List.filter_cons, hc]]
      rw [getLast?_cons_getD]

/-- C2: for every inbound batch that passes the transport checks, the
response list pairs with the request list index-by-index (so one failing
task does not stop processing of later ones); the aggregate code is
`ExecuteSuccess` iff every per-task outcome after normalization is
`ExecuteSuccess`; otherwise it equals the last non-success per-task code in
request order. -/
theorem doBatchReplicate_pairing_and_aggregate (h : EurekaServer)
    (replicateRequest : List ReplicationInstance) (token : String) :
    (doBatchReplicate h replicateRequest token).1.length = replicateRequest.length ∧
    (∀ i : Nat, (doBatchReplicate h replicateRequest token).1[i]? =
      (replicateRequest[i]?).map (fun ri => (dispatch h ri token).response)) ∧
    ((doBatchReplicate h replicateRequest token).2.1 = ExecuteSuccess ↔
      ∀ ri ∈ replicateRequest, (dispatch h ri token).code = ExecuteSuccess) ∧
    ((doBatchReplicate h replicateRequest token).2.1 ≠ ExecuteSuccess →
      ((replicateRequest.map (fun ri => (dispatch h ri token).code)).filter
          (fun c => decide (c ≠ ExecuteSuccess))).getLast? =
        some (doBatchReplicate h replicateRequest token).2.1) := by
  have hgo := doBatchGo_eq h token replicateRequest [] ExecuteSuccess []
  refine ⟨?_, ?_, ?_, ?_⟩
  · simp [doBatchReplicate, hgo]
  · intro i
    simp [doBatchReplicate, hgo, List.getElem?_map]
  · rw [show (doBatchReplicate h replicateRequest token).2.1 =
      (replicateRequest.map (fun ri => (dispatch h ri token).code)).foldl aggStep
        ExecuteSuccess by simp [doBatchReplicate, hgo]]
    rw [foldl_aggStep_success_iff]
    simp
  · intro hne
    have hchar : (doBatchReplicate h replicateRequest token).2.1 =
        (((replicateRequest.map (fun ri => (dispatch h ri token).code)).filter
          (fun c => decide (c ≠ ExecuteSuccess))).getLast?).getD ExecuteSuccess := by
      rw [show (doBatchReplicate h replicateRequest token).2.1 =
        (replicateRequest.map (fun ri => (dispatch h ri token).code)).foldl aggStep
          ExecuteSuccess by simp [doBatchReplicate, hgo]]
      exact foldl_aggStep_getLast _ _
    cases hL : ((replicateRequest.map (fun ri => (dispatch h ri token).code)).filter
        (fun c => decide (c ≠ ExecuteSuccess))).getLast? with
    | none =>
      rw [hL] at hchar
      exact absurd hchar hne
    | some x =>
      rw [hL] at hchar
      rw [hchar]
      rfl

/-- Witness for C2 on the concrete batch Register/StatusUpdate/Register
whose per-task codes under `hEx` are Success, NotFoundResource, Success. -/
theorem doBatchReplicate_pairing_and_aggregate_witness :
    (doBatchReplicate hEx batchEx "tk").1.length = 3 ∧
    (doBatchReplicate hEx batchEx "tk").1[1]? =
      (batchEx[1]?).map (fun ri => (dispatch hEx ri "tk").response) ∧
    ((batchEx.map (fun ri => (dispatch hEx ri "tk").code)).filter
        (fun c => decide (c ≠ ExecuteSuccess))).getLast? =
      some (doBatchReplicate hEx batchEx "tk").2.1 :=
  ⟨(doBatchReplicate_pairing_and_aggregate hEx batchEx "tk").1,
   (doBatchReplicate_pairing_and_aggregate hEx batchEx "tk").2.1 1,
   (doBatchReplicate_pairing_and_aggregate hEx batchEx "tk").2.2.2 (by decide)⟩

/-- C5: `shouldReplicate` is false for every event in a foreign namespace
and for every event whose metadata carries the reserved replicate flag with
a truthy value; for every other event, including when the flag is absent,
it is true.  (It is a plain function of the server and the event, so it has
no side effects by construction.) -/
theorem shouldReplicate_namespace_and_flag (h : EurekaServer) (e : InstanceEvent) :
    (e.Namespace ≠ h.namespaceName → shouldReplicate h e = false) ∧
    (∀ v, lookupMeta e.MetaData MetadataReplicate = some v →
      strconvParseBool v = some true → shouldReplicate h e = false) ∧
    (e.Namespace = h.namespaceName →
      (∀ v, lookupMeta e.MetaData MetadataReplicate = some v →
        strconvParseBool v ≠ some true) →
      shouldReplicate h e = true) := by
  refine ⟨fun hns => ?_, fun v hv hb => ?_, fun hns hflag => ?_⟩
  · simp [shouldReplicate, hns]
  · by_cases hns : e.Namespace = h.namespaceName
    · cases hm : e.MetaData with
      | nil =>
        rw [hm] at hv
        simp [lookupMeta] at hv
      | cons a t =>
        rw [hm] at hv
        simp [shouldReplicate, hns, hm, hv, hb]
    · simp [shouldReplicate, hns]
  · cases hm : e.MetaData with
    | nil => simp [shouldReplicate, hns, hm]
    | cons a t =>
      cases hv : lookupMeta (a :: t) MetadataReplicate with
      | none => simp [shouldReplicate, hns, hm, hv]
      | some v =>
        have hnb := hflag v (by rw [hm]; exact hv)
        cases hb : strconvParseBool v with
        | none => simp [shouldReplicate, hns, hm, hv, hb]
        | some b =>
          cases b with
          | false => simp [shouldReplicate, hns, hm, hv, hb]
          | true => exact absurd hb hnb

/-- Witness for C5: a foreign-namespace event, a flagged event and a plain
event, concretely classified. -/
theorem shouldReplicate_namespace_and_flag_witness :
    shouldReplicate hEx eForeign = false ∧
    shouldReplicate hEx eFlagged = false ∧
    shouldReplicate hEx eHeartbeat = true :=
  ⟨(shouldReplicate_namespace_and_flag hEx eForeign).1 (by decide),
   (shouldReplicate_namespace_and_flag hEx eFlagged).2.1 "true" rfl rfl,
   (shouldReplicate_namespace_and_flag hEx eHeartbeat).2.2 rfl
     (by intro v hv; simp [eHeartbeat, lookupMeta] at hv)⟩

/-- C6: a replicable InstanceSendHeartbeat event translates to exactly one
task with action Heartbeat and an instance snapshot built from the event,
whose overriddenStatus is OutOfService exactly when the source instance is
isolated and is unset (the empty zero value) otherwise. -/
theorem handleInstanceEvent_sendHeartbeat_task (h : EurekaServer)
    (e : InstanceEvent) (curTimeMilli : Int)
    (hk : e.EType = EventType.sendHeartbeat)
    (hr : shouldReplicate h e = true) :
    handleInstanceEvent h e curTimeMilli =
      [{ AppName := formatReadName e.Service
         Id := e.Id
         Status := StatusUp
         OverriddenStatus := if e.Instance.Isolate then StatusOutOfService else ""
         InstanceInfo := some (eventToInstance e (formatReadName e.Service) curTimeMilli)
         Action := actionHeartbeat }] := by
  cases hI : e.Instance.Isolate <;>
    simp [handleInstanceEvent, hr, hk, hI]

/-- Witness for C6 at the concrete isolated-instance heartbeat event. -/
theorem handleInstanceEvent_sendHeartbeat_task_witness :
    handleInstanceEvent hEx eHeartbeat 42 =
      [{ AppName := formatReadName eHeartbeat.Service
         Id := eHeartbeat.Id
         Status := StatusUp
         OverriddenStatus := if eHeartbeat.Instance.Isolate then StatusOutOfService else ""
         InstanceInfo := some (eventToInstance eHeartbeat (formatReadName eHeartbeat.Service) 42)
         Action := actionHeartbeat }] :=
  handleInstanceEvent_sendHeartbeat_task hEx eHeartbeat 42 rfl rfl

/-- C7: a replicable InstanceOffline event translates to exactly one task
with action Cancel carrying only the app name and instance id: every other
field keeps its zero value and there is no instance snapshot. -/
theorem handleInstanceEvent_offline_task (h : EurekaServer)
    (e : InstanceEvent) (curTimeMilli : Int)
    (hk : e.EType = EventType.offline)
    (hr : shouldReplicate h e = true) :
    handleInstanceEvent h e curTimeMilli =
      [{ AppName := formatReadName e.Service
         Id := e.Id
         Action := actionCancel }] := by
  simp [handleInstanceEvent, hr, hk]

/-- Witness for C7 at the concrete offline event. -/
theorem handleInstanceEvent_offline_task_witness :
    handleInstanceEvent hEx eOffline 42 =
      [{ AppName := formatReadName eOffline.Service
         Id := eOffline.Id
         Action := actionCancel }] :=
  handleInstanceEvent_offline_task hEx eOffline 42 rfl rfl

/-- C8: the snapshot constructed from an event copies host, port, protocol,
version, priority, weight, health-check configuration, metadata and location
from the event's instance, and its healthy/isolate booleans are forced by
the event kind — turn-health, turn-unhealth, open-isolate, close-isolate —
regardless of the booleans already on the source instance. -/
theorem eventToInstance_copies_and_overrides (event : InstanceEvent)
    (appName : String) (curTimeMilli : Int) :
    (eventToInstance event appName curTimeMilli).instance_.Host = event.Instance.Host ∧
    (eventToInstance event appName curTimeMilli).instance_.Port = event.Instance.Port ∧
    (eventToInstance event appName curTimeMilli).instance_.Protocol = event.Instance.Protocol ∧
    (eventToInstance event appName curTimeMilli).instance_.Version = event.Instance.Version ∧
    (eventToInstance event appName curTimeMilli).instance_.Priority = event.Instance.Priority ∧
    (eventToInstance event appName curTimeMilli).instance_.Weight = event.Instance.Weight ∧
    (eventToInstance event appName curTimeMilli).instance_.EnableHealthCheck
      = event.Instance.EnableHealthCheck ∧
    (eventToInstance event appName curTimeMilli).instance_.HealthCheck
      = event.Instance.HealthCheck ∧
    (eventToInstance event appName curTimeMilli).instance_.Metadata = event.Instance.Metadata ∧
    (eventToInstance event appName curTimeMilli).instance_.Location = event.Instance.Location ∧
    (eventToInstance event appName curTimeMilli).instance_.Healthy =
      (match event.EType with
        | EventType.turnHealth => true
        | EventType.turnUnHealth => false
        | _ => event.Instance.Healthy) ∧
    (eventToInstance event appName curTimeMilli).instance_.Isolate =
      (match event.EType with
        | EventType.openIsolate => true
        | EventType.closeIsolate => false
        | _ => event.Instance.Isolate) := by
  obtain ⟨id, ns, sv, inst, ety, md⟩ := event
  cases ety <;> simp [eventToInstance]

end Replicate
